import Mathlib

/-!
Shallow embedding of the ENS vessel-tracking batch XML update engine
(`src/xml_utils.py` and `src/config_manager.py`).

XML documents are modelled as element trees: every element has a tag
(stored fully qualified in ElementTree style, `\x7buri\x7dlocal`), an
optional text content, and a forest of children (`XmlForest` is an
inlined list so that all traversals are structurally recursive and every
definition evaluates inside the kernel).  The `find`/mutate semantics
mirror CPython `xml.etree.ElementPath` for the path shapes the source
uses (`.//ns:A/ns:B/...`): candidates for the leading segment are the
proper descendants of the root in preorder; each later segment steps to
children; the first candidate (in the lazy generator order) whose whole
chain succeeds is selected.
-/

mutual

inductive XmlNode where
  | elem (tag : String) (text : Option String) (children : XmlForest)

inductive XmlForest where
  | nil
  | cons (head : XmlNode) (tail : XmlForest)

end

namespace XmlNode

def tag : XmlNode → String
  | elem t _ _ => t

def text : XmlNode → Option String
  | elem _ x _ => x

def children : XmlNode → XmlForest
  | elem _ _ c => c

end XmlNode

namespace XmlForest

def ofList : List XmlNode → XmlForest
  | [] => nil
  | c :: rest => cons c (ofList rest)

def append : XmlForest → XmlForest → XmlForest
  | nil, r => r
  | cons c rest, r => cons c (append rest r)

/-- Check for a member with the given tag. -/
def anyTag : XmlForest → String → Bool
  | nil, _ => false
  | cons c rest, t => c.tag == t || anyTag rest t

end XmlForest

/-- Fixed default namespace of the declaration schema (`xml_utils.py` line 36/43). -/
def nsUri : String := "http://www.ksdsoftware.com/Schema/ICS/EntrySummaryDeclaration"

/-- Namespace-qualified tag in ElementTree notation, `\x7buri\x7dlocal`,
as built by string concatenation in the source. -/
def qn (t : String) : String := "\x7b" ++ nsUri ++ "\x7d" ++ t

/-!
Mutate-first-match machinery.  `chainModify f path n` follows `path`
through child axes starting at `n` and applies `f` at the terminal node of
the first successful chain (children tried in order; a candidate child
whose own subtree fails the rest of the chain is skipped, matching the
lazy generator composition in `ElementPath`).  `forestModify` performs the
leading descendant step of `.//`: candidates are proper descendants, in
preorder.
-/

mutual

def chainModify (f : XmlNode → XmlNode) : List String → XmlNode → Option XmlNode
  | [], n => some (f n)
  | t0 :: ts, XmlNode.elem t x cs =>
    match chainChildren f t0 ts cs with
    | some cs2 => some (XmlNode.elem t x cs2)
    | none => none

def chainChildren (f : XmlNode → XmlNode) (t0 : String) (ts : List String) :
    XmlForest → Option XmlForest
  | XmlForest.nil => none
  | XmlForest.cons c rest =>
    match (if c.tag == t0 then chainModify f ts c else none) with
    | some c2 => some (XmlForest.cons c2 rest)
    | none =>
      match chainChildren f t0 ts rest with
      | some rest2 => some (XmlForest.cons c rest2)
      | none => none

end

def forestModify (f : XmlNode → XmlNode) (t0 : String) (ts : List String) :
    XmlForest → Option XmlForest
  | XmlForest.nil => none
  | XmlForest.cons (XmlNode.elem t x cs) rest =>
    match (if t == t0 then chainModify f ts (XmlNode.elem t x cs) else none) with
    | some c2 => some (XmlForest.cons c2 rest)
    | none =>
      match forestModify f t0 ts cs with
      | some cs2 => some (XmlForest.cons (XmlNode.elem t x cs2) rest)
      | none =>
        match forestModify f t0 ts rest with
        | some rest2 => some (XmlForest.cons (XmlNode.elem t x cs) rest2)
        | none => none

/-!
Read-only first-match lookup with the same selection order, used to state
properties about the texts of located elements.
-/

mutual

def chainFind : List String → XmlNode → Option XmlNode
  | [], n => some n
  | t0 :: ts, XmlNode.elem _ _ cs => chainChildrenFind t0 ts cs

def chainChildrenFind (t0 : String) (ts : List String) :
    XmlForest → Option XmlNode
  | XmlForest.nil => none
  | XmlForest.cons c rest =>
    match (if c.tag == t0 then chainFind ts c else none) with
    | some r => some r
    | none => chainChildrenFind t0 ts rest

end

def forestFind (t0 : String) (ts : List String) : XmlForest → Option XmlNode
  | XmlForest.nil => none
  | XmlForest.cons (XmlNode.elem t x cs) rest =>
    match (if t == t0 then chainFind ts (XmlNode.elem t x cs) else none) with
    | some r => some r
    | none =>
      match forestFind t0 ts cs with
      | some r => some r
      | none => forestFind t0 ts rest

/-- Model of `root.find(".//" ++ path)`: first match among the proper
descendants of `root`, in the ElementPath generator order. -/
def findDesc (root : XmlNode) (path : List String) : Option XmlNode :=
  match path with
  | [] => none
  | t0 :: ts => forestFind t0 ts root.children

/-- Text of the element located by a descendant path, when one is located. -/
def textAt (root : XmlNode) (path : List String) : Option (Option String) :=
  (findDesc root path).map XmlNode.text

/-- Model of the nested helper `update_val` of `update_xml_file`
(`xml_utils.py` lines 46-51): locate the first match of the descendant
path, replace its text, report whether a node was found.  A miss is a
no-op. -/
def update_val (root : XmlNode) (path : List String) (value : String) :
    XmlNode × Bool :=
  match path with
  | [] => (root, false)
  | t0 :: ts =>
    match forestModify (fun n => XmlNode.elem n.tag (some value) n.children) t0 ts
        root.children with
    | some cs => (XmlNode.elem root.tag root.text cs, true)
    | none => (root, false)

/-- Model of the nested helper `ensure_child_node` (`xml_utils.py` lines
53-64): locate the parent by descendant path (no-op when absent); the
child-axis `parent.find("ns:" ++ child_tag)` looks only at direct
children; if no direct child carries the qualified child tag, append a
new child with the default text as the parent's last child, otherwise
leave the parent alone. -/
def ensure_child_node (root : XmlNode) (parentPath : List String)
    (childTag : String) (defaultValue : String) : XmlNode :=
  let f : XmlNode → XmlNode := fun p =>
    if p.children.anyTag (qn childTag) then p
    else XmlNode.elem p.tag p.text
      (p.children.append
        (XmlForest.cons (XmlNode.elem (qn childTag) (some defaultValue) XmlForest.nil)
          XmlForest.nil))
  match parentPath with
  | [] => root
  | t0 :: ts =>
    match forestModify f t0 ts root.children with
    | some cs => XmlNode.elem root.tag root.text cs
    | none => root

/-!
Fixed field paths used by `update_xml_file` (all relative to the document
root through the `.//` descendant axis, namespace-qualified at every
segment).
-/

def pConveyance : List String := [qn "EntrySummaryDeclaration", qn "ConveyanceRefNum"]

def pIde : List String := [qn "EntrySummaryDeclaration", qn "IdeOfMeaOfTraCro"]

def pDeclPlace : List String := [qn "EntrySummaryDeclaration", qn "DeclPlace"]

def pRefNum : List String :=
  [qn "EntrySummaryDeclaration", qn "CustOfficeOfFirstEntry", qn "RefNum"]

def pArrival : List String :=
  [qn "EntrySummaryDeclaration", qn "CustOfficeOfFirstEntry", qn "ExpectedDateTimeOfArrival"]

def pConsignor : List String := [qn "EntrySummaryDeclaration", qn "Consignor"]

def pConsignee : List String := [qn "EntrySummaryDeclaration", qn "Consignee"]

def pLodgingTin : List String :=
  [qn "EntrySummaryDeclaration", qn "LodgingPerson", qn "TIN"]

def pCarrierTin : List String :=
  [qn "EntrySummaryDeclaration", qn "Carrier", qn "TIN"]

/-- Uppercasing as `str.upper()` behaves on the ASCII strings the rule
compares against. -/
def pyUpper (s : String) : String := String.mk (s.toList.map Char.toUpper)

/-- Port codes that select the GB identifier (`xml_utils.py` line 90). -/
def gb_ports : List String := ["GBLIV", "GBFXT"]

/-- Jurisdiction identifier rule (`xml_utils.py` lines 90-94): uppercase
the port code; members of `gb_ports` select the GB TIN, everything else
the XI TIN. -/
def tin_value (port : String) : String :=
  cond (gb_ports.contains (pyUpper port)) "GB243408284000" "XI243408284000"

/-- Pure tree-level body of `update_xml_file` after a successful parse
(`xml_utils.py` lines 66-97): the sequence of `update_val` and
`ensure_child_node` calls.  `refNum` is the string
`config_manager.get_ref_num(port)` returned for the current settings
file (the settings file is re-read per call but constant during a batch);
Python truthiness of a string is non-emptiness, so the `RefNum` update
runs exactly when `refNum` is non-empty. -/
def update_xml_tree (root : XmlNode) (voyage imo port refNum formattedDate : String) :
    XmlNode :=
  let r1 := (update_val root pConveyance voyage).1
  let r2 := (update_val r1 pIde imo).1
  let r3 := (update_val r2 pDeclPlace port).1
  let r4 := cond (refNum == "") r3 (update_val r3 pRefNum refNum).1
  let r5 := (update_val r4 pArrival formattedDate).1
  let r6 := ensure_child_node r5 pConsignor "Number" "N/A"
  let r7 := ensure_child_node r6 pConsignee "Number" "N/A"
  let r8 := (update_val r7 pLodgingTin (tin_value port)).1
  (update_val r8 pCarrierTin (tin_value port)).1

/-!
Date handling (`xml_utils.py` lines 16-20).  The source runs
`datetime.strptime(arrival_date_str, "%Y-%m-%d")` and on success formats
`dt.strftime("%Y%m%d") + "0000"`.  CPython `_strptime` compiles `%Y` to
exactly four digits, `%m` to `1[0-2]|0[1-9]|[1-9]` and `%d` to
`3[0-1]|[1-2]\d|0[1-9]|[1-9]| [1-9]` (so a day may be written with one
digit, two digits, or a space and a digit), requires the whole string to
be consumed, and `datetime()` then validates the calendar day and rejects
year 0.  `strftime` on the reference platform zero-pads `%m` and `%d` to
two digits but prints the `%Y` year without padding, so years below 1000
produce fewer than four year digits.  Dates are handled over the
character list of the input (ASCII digits; the Unicode-digit forms
Python's `re` additionally accepts denote the same numbers).
-/

def isLeapYear (y : Nat) : Bool :=
  (y % 4 == 0 && y % 100 != 0) || y % 400 == 0

def daysInMonth (y m : Nat) : Nat :=
  if m == 2 then (if isLeapYear y then 29 else 28)
  else if m == 4 || m == 6 || m == 9 || m == 11 then 30
  else 31

def digitsVal (cs : List Char) : Nat :=
  cs.foldl (fun a c => a * 10 + (c.toNat - 48)) 0

def allDigits (cs : List Char) : Bool :=
  cs.all (fun c => c.isDigit)

/-- Split a character list at every dash, the effect of matching the
literal separators of `%Y-%m-%d` (no token may contain a dash and the
regex must consume the whole string). -/
def splitDash : List Char → List (List Char)
  | [] => [[]]
  | c :: rest =>
    match splitDash rest with
    | [] => [[c]]
    | g :: gs => if c == '-' then [] :: g :: gs else (c :: g) :: gs

/-- Year token of `%Y`: exactly four ASCII digits. -/
def yearTok (cs : List Char) : Option Nat :=
  if cs.length == 4 && allDigits cs then some (digitsVal cs) else none

/-- Month token of `%m`: one or two digits with value 1..12. -/
def monthTok (cs : List Char) : Option Nat :=
  if (cs.length == 1 || cs.length == 2) && allDigits cs
      && 1 ≤ digitsVal cs && digitsVal cs ≤ 12 then
    some (digitsVal cs)
  else none

/-- Day token of `%d`: one or two digits with value 1..31, or a space
followed by one digit 1..9. -/
def dayTok : List Char → Option Nat
  | [' ', c] => if c.isDigit && c != '0' then some (c.toNat - 48) else none
  | cs =>
    if (cs.length == 1 || cs.length == 2) && allDigits cs
        && 1 ≤ digitsVal cs && digitsVal cs ≤ 31 then
      some (digitsVal cs)
    else none

/-- Model of `datetime.strptime(s, "%Y-%m-%d")`: `none` is the
`ValueError` branch.  `datetime()` additionally checks the day against
the month length and rejects year 0. -/
def parseArrivalDate (s : String) : Option (Nat × Nat × Nat) :=
  match splitDash s.toList with
  | [ys, ms, ds] =>
    match yearTok ys, monthTok ms, dayTok ds with
    | some y, some m, some d =>
      if 1 ≤ y && d ≤ daysInMonth y m then some (y, m, d) else none
    | _, _, _ => none
  | _ => none

def digitChar (n : Nat) : Char := Char.ofNat (48 + n)

/-- Decimal rendering without padding for the values a parsed date can
carry (`datetime` caps the year at 9999, months and days are smaller):
this is the platform `%Y` output, which does not zero-pad. -/
def decStr (n : Nat) : String :=
  if n < 10 then String.mk [digitChar n]
  else if n < 100 then String.mk [digitChar (n / 10), digitChar (n % 10)]
  else if n < 1000 then
    String.mk [digitChar (n / 100), digitChar (n / 10 % 10), digitChar (n % 10)]
  else
    String.mk [digitChar (n / 1000), digitChar (n / 100 % 10),
      digitChar (n / 10 % 10), digitChar (n % 10)]

def pad2 (n : Nat) : String :=
  if n < 10 then "0" ++ decStr n else decStr n

/-- Model of `dt.strftime("%Y%m%d") + "0000"` on the reference platform:
the year prints without zero padding, month and day pad to two digits. -/
def formatArrival (y m d : Nat) : String :=
  decStr y ++ pad2 m ++ pad2 d ++ "0000"

/-- Date-resolution step of `update_xml_directory` (lines 16-20). -/
def formattedDateOf (s : String) : Option String :=
  (parseArrivalDate s).map (fun x => formatArrival x.1 x.2.1 x.2.2)

/-!
File and batch model.  A file's content is represented by its parse
outcome: `ET.parse` succeeds exactly on well-formed XML and yields the
element tree, raises `ParseError` otherwise.  `tree.write(file_path, ...)`
rewrites the same path in place (opening for writing truncates, then the
serialized bytes are written front to back), so an I/O failure after `k`
written characters leaves a prefix of the fresh serialization on disk.
A truncated prefix is treated as not well-formed (no claim reparses one).
-/

inductive FileContent where
  | malformed
  | wellFormed (doc : XmlNode)
  | truncated (s : String)

inductive WriteOutcome where
  | ok
  | fail (k : Nat) (msg : String)

mutual

def serializeElem : XmlNode → String
  | XmlNode.elem t x cs =>
    "<" ++ t ++ ">" ++ (x.getD "") ++ serializeForest cs ++ "</" ++ t ++ ">"

def serializeForest : XmlForest → String
  | XmlForest.nil => ""
  | XmlForest.cons c rest => serializeElem c ++ serializeForest rest

end

/-- Serialized document as written by `tree.write(..., encoding="utf-8",
xml_declaration=True)`.  ElementTree renders the registered default
namespace as an `xmlns` attribute instead of brace-qualified tags; the
claims only depend on the written bytes being fresh (a truncated write
leaves a prefix of the new serialization, not of the original file),
never on the exact byte format, so the rendering here keeps the
qualified tags. -/
def serializeDoc (d : XmlNode) : String :=
  "<?xml version=\x271.0\x27 encoding=\x27utf-8\x27?>\n" ++ serializeElem d

/-- Outcome of one `update_xml_file` call: `updated` models `return True`,
`skipped` models the `except ET.ParseError` branch (`return False` after
printing a console line), and `raised` models an exception escaping the
function (only the write can raise here; `ET.ParseError` is the only
caught exception). -/
inductive FileOutcome where
  | updated (new : FileContent)
  | skipped (new : FileContent)
  | raised (msg : String) (new : FileContent)

/-- Model of `update_xml_file` (`xml_utils.py` lines 35-104) for one
file: parse, transform, write back in place.  `wo` is the fate of the
write system call for this file. -/
def update_xml_file (wo : WriteOutcome) (content : FileContent)
    (voyage imo port refNum formattedDate : String) : FileOutcome :=
  match content with
  | FileContent.malformed => FileOutcome.skipped FileContent.malformed
  | FileContent.truncated s => FileOutcome.skipped (FileContent.truncated s)
  | FileContent.wellFormed d =>
    let d2 := update_xml_tree d voyage imo port refNum formattedDate
    match wo with
    | WriteOutcome.ok => FileOutcome.updated (FileContent.wellFormed d2)
    | WriteOutcome.fail k msg =>
      FileOutcome.raised msg (FileContent.truncated ((serializeDoc d2).take k))

/-- Lower-cased extension filter `file.lower().endswith(".xml")`
(`xml_utils.py` line 24). -/
def isXmlName (name : String) : Bool :=
  match (name.toList.map Char.toLower).reverse with
  | 'l' :: 'm' :: 'x' :: '.' :: _ => true
  | _ => false

/-- Per-file loop of `update_xml_directory` (lines 22-31): visit the walk
order, skip names without the XML extension, count successes, record
`"name: message"` for every exception that escapes `update_xml_file`,
and never stop early.  The result pairs the `(updated_count, errors)`
accumulator with the state of every file after the walk. -/
def processFiles (wo : String → WriteOutcome)
    (voyage imo port refNum formattedDate : String) :
    List (String × FileContent) → (Nat × List String) × List (String × FileContent)
  | [] => ((0, []), [])
  | (name, content) :: rest =>
    if isXmlName name then
      let res := update_xml_file (wo name) content voyage imo port refNum formattedDate
      let k := processFiles wo voyage imo port refNum formattedDate rest
      match res with
      | FileOutcome.updated nc => ((k.1.1 + 1, k.1.2), (name, nc) :: k.2)
      | FileOutcome.skipped nc => ((k.1.1, k.1.2), (name, nc) :: k.2)
      | FileOutcome.raised msg nc =>
        ((k.1.1, (name ++ ": " ++ msg) :: k.1.2), (name, nc) :: k.2)
    else
      let k := processFiles wo voyage imo port refNum formattedDate rest
      (k.1, (name, content) :: k.2)

/-- Model of `update_xml_directory` (`xml_utils.py` lines 6-33).  `files`
is the walk of the directory in visitation order (file name paired with
content); the date is resolved first and a `ValueError` from `strptime`
returns `(0, ["Invalid date format: " ++ s])` before any file is opened.
`refNum` stands for `config_manager.get_ref_num(port)`, a fixed string
for the batch (see `get_ref_num` below). -/
def update_xml_directory (wo : String → WriteOutcome)
    (files : List (String × FileContent))
    (voyage imo port refNum arrivalDateStr : String) :
    (Nat × List String) × List (String × FileContent) :=
  match formattedDateOf arrivalDateStr with
  | none => ((0, ["Invalid date format: " ++ arrivalDateStr]), files)
  | some fd => processFiles wo voyage imo port refNum fd files

/-!
Settings store (`src/config_manager.py`).  The settings file is external
JSON; `load_settings` returns the default structure when the file is
missing or `json.load` raises `JSONDecodeError`, and the parsed value
otherwise.  `get_ref_num` then evaluates
`load_settings().get("port_mappings", \x7b\x7d).get(port_code, "")`;
each `.get` exists only on a `dict`, so a parsed settings value (or a
`port_mappings` value) that is valid JSON but not an object raises
`AttributeError`, modelled with `Except.error`.  JSON objects produced
by `json.load` have unique keys (a later duplicate overwrites an earlier
one), so objects are association lists looked up from the rear.
-/

inductive PyJson where
  | obj (kvs : List (String × PyJson))
  | arr (xs : List PyJson)
  | str (s : String)
  | num (n : Int)
  | boolVal (b : Bool)
  | null

inductive SettingsFile where
  | missing
  | notJson
  | valid (j : PyJson)

def dictLookup (kvs : List (String × PyJson)) (k : String) : Option PyJson :=
  kvs.reverse.lookup k

/-- Model of `load_settings` (`config_manager.py` lines 6-15). -/
def load_settings : SettingsFile → PyJson
  | SettingsFile.missing => PyJson.obj [("port_mappings", PyJson.obj [])]
  | SettingsFile.notJson => PyJson.obj [("port_mappings", PyJson.obj [])]
  | SettingsFile.valid j => j

/-- Model of `get_ref_num` (`config_manager.py` lines 27-31). -/
def get_ref_num (fs : SettingsFile) (port_code : String) : Except String PyJson :=
  match load_settings fs with
  | PyJson.obj kvs =>
    match (dictLookup kvs "port_mappings").getD (PyJson.obj []) with
    | PyJson.obj m => Except.ok ((dictLookup m port_code).getD (PyJson.str ""))
    | _ => Except.error "AttributeError"
  | _ => Except.error "AttributeError"

/-!
Canonical declaration documents.  `mkDecl` builds a well-formed
declaration document: a root element bound to the fixed namespace whose
`EntrySummaryDeclaration` child carries every mutated field path of the
schema at its fixed root-relative position, with arbitrary texts.  The
two business-party substructures hold a leading `Name` child (so that an
appended `Number` lands demonstrably last) and an optional `Number`
child: `none` means the child is absent, `some t` that it is present
with text `t`.
-/

def consignKids (nameText : Option String) (num : Option (Option String)) :
    XmlForest :=
  match num with
  | none => XmlForest.ofList [XmlNode.elem (qn "Name") nameText XmlForest.nil]
  | some t => XmlForest.ofList [XmlNode.elem (qn "Name") nameText XmlForest.nil,
               XmlNode.elem (qn "Number") t XmlForest.nil]

def mkDecl (rootLocal : String) (crn ide dpl ref eta lpTin caTin : Option String)
    (conorName : Option String) (conorNum : Option (Option String))
    (coneeName : Option String) (coneeNum : Option (Option String)) : XmlNode :=
  XmlNode.elem (qn rootLocal) none (XmlForest.ofList [
    XmlNode.elem (qn "EntrySummaryDeclaration") none (XmlForest.ofList [
      XmlNode.elem (qn "ConveyanceRefNum") crn XmlForest.nil,
      XmlNode.elem (qn "IdeOfMeaOfTraCro") ide XmlForest.nil,
      XmlNode.elem (qn "DeclPlace") dpl XmlForest.nil,
      XmlNode.elem (qn "CustOfficeOfFirstEntry") none (XmlForest.ofList [
        XmlNode.elem (qn "RefNum") ref XmlForest.nil,
        XmlNode.elem (qn "ExpectedDateTimeOfArrival") eta XmlForest.nil]),
      XmlNode.elem (qn "Consignor") none (consignKids conorName conorNum),
      XmlNode.elem (qn "Consignee") none (consignKids coneeName coneeNum),
      XmlNode.elem (qn "LodgingPerson") none (XmlForest.ofList [
        XmlNode.elem (qn "TIN") lpTin XmlForest.nil]),
      XmlNode.elem (qn "Carrier") none (XmlForest.ofList [
        XmlNode.elem (qn "TIN") caTin XmlForest.nil])])])

/-!
Per-operation evaluation lemmas on canonical documents.  Every chain in
`update_xml_file` matches inside the `EntrySummaryDeclaration` child and
stops at the first matching sibling, so none of the text parameters (and
for most operations not even the optional `Number` children) influence
the traversal.
-/

theorem upd_crn (r : String) (crn ide dpl ref eta lp ca cn dn : Option String)
    (cNum dNum : Option (Option String)) (v : String) :
    (update_val (mkDecl r crn ide dpl ref eta lp ca cn cNum dn dNum) pConveyance v).1
    = mkDecl r (some v) ide dpl ref eta lp ca cn cNum dn dNum := rfl

theorem upd_ide (r : String) (crn ide dpl ref eta lp ca cn dn : Option String)
    (cNum dNum : Option (Option String)) (v : String) :
    (update_val (mkDecl r crn ide dpl ref eta lp ca cn cNum dn dNum) pIde v).1
    = mkDecl r crn (some v) dpl ref eta lp ca cn cNum dn dNum := rfl

theorem upd_dpl (r : String) (crn ide dpl ref eta lp ca cn dn : Option String)
    (cNum dNum : Option (Option String)) (v : String) :
    (update_val (mkDecl r crn ide dpl ref eta lp ca cn cNum dn dNum) pDeclPlace v).1
    = mkDecl r crn ide (some v) ref eta lp ca cn cNum dn dNum := rfl

theorem upd_ref (r : String) (crn ide dpl ref eta lp ca cn dn : Option String)
    (cNum dNum : Option (Option String)) (v : String) :
    (update_val (mkDecl r crn ide dpl ref eta lp ca cn cNum dn dNum) pRefNum v).1
    = mkDecl r crn ide dpl (some v) eta lp ca cn cNum dn dNum := rfl

theorem upd_eta (r : String) (crn ide dpl ref eta lp ca cn dn : Option String)
    (cNum dNum : Option (Option String)) (v : String) :
    (update_val (mkDecl r crn ide dpl ref eta lp ca cn cNum dn dNum) pArrival v).1
    = mkDecl r crn ide dpl ref (some v) lp ca cn cNum dn dNum := rfl

theorem upd_conor (r : String) (crn ide dpl ref eta lp ca cn dn : Option String)
    (cNum dNum : Option (Option String)) :
    ensure_child_node (mkDecl r crn ide dpl ref eta lp ca cn cNum dn dNum)
      pConsignor "Number" "N/A"
    = mkDecl r crn ide dpl ref eta lp ca cn (some (cNum.getD (some "N/A"))) dn dNum := by
  cases cNum <;> rfl

theorem upd_conee (r : String) (crn ide dpl ref eta lp ca cn dn : Option String)
    (cNum dNum : Option (Option String)) :
    ensure_child_node (mkDecl r crn ide dpl ref eta lp ca cn cNum dn dNum)
      pConsignee "Number" "N/A"
    = mkDecl r crn ide dpl ref eta lp ca cn cNum dn (some (dNum.getD (some "N/A"))) := by
  cases dNum <;> rfl

theorem upd_lp (r : String) (crn ide dpl ref eta lp ca cn dn : Option String)
    (cNum dNum : Option (Option String)) (v : String) :
    (update_val (mkDecl r crn ide dpl ref eta lp ca cn cNum dn dNum) pLodgingTin v).1
    = mkDecl r crn ide dpl ref eta (some v) ca cn cNum dn dNum := rfl

theorem upd_ca (r : String) (crn ide dpl ref eta lp ca cn dn : Option String)
    (cNum dNum : Option (Option String)) (v : String) :
    (update_val (mkDecl r crn ide dpl ref eta lp ca cn cNum dn dNum) pCarrierTin v).1
    = mkDecl r crn ide dpl ref eta lp (some v) cn cNum dn dNum := rfl

/-- Effect of the full `update_xml_file` transform on a canonical
declaration document: voyage, vessel identifier, port, arrival stamp and
both TINs are written, the reference number is written exactly when the
looked-up string is non-empty, and each absent `Number` child is created
with text `N/A` while a present one is left alone. -/
theorem update_xml_tree_mkDecl (rootLocal : String)
    (crn ide dpl ref eta lpTin caTin : Option String)
    (conorName coneeName : Option String)
    (conorNum coneeNum : Option (Option String))
    (v i p rn fd : String) :
    update_xml_tree
      (mkDecl rootLocal crn ide dpl ref eta lpTin caTin
        conorName conorNum coneeName coneeNum) v i p rn fd
    = mkDecl rootLocal (some v) (some i) (some p)
        (cond (rn == "") ref (some rn)) (some fd)
        (some (tin_value p)) (some (tin_value p))
        conorName (some (conorNum.getD (some "N/A")))
        coneeName (some (coneeNum.getD (some "N/A"))) := by
  simp only [update_xml_tree, upd_crn, upd_ide, upd_dpl]
  cases h : (rn == "") <;>
    simp only [cond_false, cond_true, upd_ref, upd_eta, upd_conor, upd_conee,
      upd_lp, upd_ca]

/-!
General behaviour of the walk when every write succeeds: the updated
count is the number of parse-ok files with the XML extension, no error is
recorded, every such file holds its transformed tree afterwards, and
every other file (malformed, truncated or differently named) is left
exactly as it was.
-/

def isWellFormed : FileContent → Bool
  | FileContent.wellFormed _ => true
  | _ => false

def okContent (voyage imo port refNum formattedDate : String) :
    FileContent → FileContent
  | FileContent.wellFormed d =>
    FileContent.wellFormed (update_xml_tree d voyage imo port refNum formattedDate)
  | c => c

theorem processFiles_all_ok (v i p rn fd : String)
    (files : List (String × FileContent)) :
    processFiles (fun _ => WriteOutcome.ok) v i p rn fd files
    = ((files.countP (fun f => isXmlName f.1 && isWellFormed f.2), []),
       files.map (fun f =>
         if isXmlName f.1 then (f.1, okContent v i p rn fd f.2) else f)) := by
  induction files with
  | nil => rfl
  | cons f rest ih =>
    obtain ⟨name, content⟩ := f
    cases hx : isXmlName name <;>
      cases content <;>
        simp [processFiles, hx, ih, update_xml_file, okContent, isWellFormed,
          List.countP_cons]

/-- C1: for every well-formed declaration document whose root is bound to
the fixed namespace and which carries the mutated field paths of the
schema at their fixed root-relative positions, the batch update with
voyage `V265`, vessel identifier `9123456`, port `GBLIV` and arrival date
`2025-12-11` rewrites the file so that the `ConveyanceRefNum` text
becomes `V265`, the `CustOfficeOfFirstEntry/ExpectedDateTimeOfArrival`
text becomes `202512110000`, and the `TIN` texts under both
`LodgingPerson` and `Carrier` become `GB243408284000`. -/
theorem c1_batch_example (name rootLocal : String)
    (crn ide dpl ref eta lpTin caTin conorName coneeName : Option String)
    (conorNum coneeNum : Option (Option String)) (rn : String)
    (h : isXmlName name = true) :
    update_xml_directory (fun _ => WriteOutcome.ok)
      [(name, FileContent.wellFormed (mkDecl rootLocal crn ide dpl ref eta lpTin caTin
        conorName conorNum coneeName coneeNum))]
      "V265" "9123456" "GBLIV" rn "2025-12-11"
    = ((1, []),
       [(name, FileContent.wellFormed (update_xml_tree
         (mkDecl rootLocal crn ide dpl ref eta lpTin caTin
           conorName conorNum coneeName coneeNum)
         "V265" "9123456" "GBLIV" rn "202512110000"))])
    ∧ textAt (update_xml_tree
        (mkDecl rootLocal crn ide dpl ref eta lpTin caTin
          conorName conorNum coneeName coneeNum)
        "V265" "9123456" "GBLIV" rn "202512110000") pConveyance
      = some (some "V265")
    ∧ textAt (update_xml_tree
        (mkDecl rootLocal crn ide dpl ref eta lpTin caTin
          conorName conorNum coneeName coneeNum)
        "V265" "9123456" "GBLIV" rn "202512110000") pArrival
      = some (some "202512110000")
    ∧ textAt (update_xml_tree
        (mkDecl rootLocal crn ide dpl ref eta lpTin caTin
          conorName conorNum coneeName coneeNum)
        "V265" "9123456" "GBLIV" rn "202512110000") pLodgingTin
      = some (some "GB243408284000")
    ∧ textAt (update_xml_tree
        (mkDecl rootLocal crn ide dpl ref eta lpTin caTin
          conorName conorNum coneeName coneeNum)
        "V265" "9123456" "GBLIV" rn "202512110000") pCarrierTin
      = some (some "GB243408284000") := by
  refine ⟨?_, ?_, ?_, ?_, ?_⟩
  · have e := processFiles_all_ok "V265" "9123456" "GBLIV" rn "202512110000"
      [(name, FileContent.wellFormed (mkDecl rootLocal crn ide dpl ref eta lpTin caTin
        conorName conorNum coneeName coneeNum))]
    simp only [List.countP_cons, List.countP_nil, List.map_cons, List.map_nil,
      h, isWellFormed, Bool.and_self, if_true, okContent] at e
    exact e
  · rw [update_xml_tree_mkDecl]; rfl
  · rw [update_xml_tree_mkDecl]; rfl
  · rw [update_xml_tree_mkDecl]; rfl
  · rw [update_xml_tree_mkDecl]; rfl

/-- Witness for C1 at a concrete file name and document. -/
theorem c1_batch_example_witness :
    isXmlName "a.xml" = true ∧
    textAt (update_xml_tree
      (mkDecl "Root" none none none none none none none none none none none)
      "V265" "9123456" "GBLIV" "" "202512110000") pConveyance = some (some "V265") :=
  ⟨rfl, (c1_batch_example "a.xml" "Root" none none none none none none none none
    none none none "" rfl).2.1⟩

/-- C6: the uppercased port code selects the single TIN identifier,
`GB243408284000` for members of GBLIV/GBFXT and `XI243408284000`
otherwise, and that one value is written to both the `LodgingPerson/TIN`
and the `Carrier/TIN` field. -/
theorem c6_tin_rule (port : String) (rootLocal : String)
    (crn ide dpl ref eta lpTin caTin conorName coneeName : Option String)
    (conorNum coneeNum : Option (Option String)) (v i rn fd : String) :
    (pyUpper port = "GBLIV" ∨ pyUpper port = "GBFXT" →
      tin_value port = "GB243408284000")
    ∧ (pyUpper port ≠ "GBLIV" ∧ pyUpper port ≠ "GBFXT" →
      tin_value port = "XI243408284000")
    ∧ textAt (update_xml_tree
        (mkDecl rootLocal crn ide dpl ref eta lpTin caTin
          conorName conorNum coneeName coneeNum) v i port rn fd) pLodgingTin
      = some (some (tin_value port))
    ∧ textAt (update_xml_tree
        (mkDecl rootLocal crn ide dpl ref eta lpTin caTin
          conorName conorNum coneeName coneeNum) v i port rn fd) pCarrierTin
      = some (some (tin_value port)) := by
  refine ⟨?_, ?_, ?_, ?_⟩
  · intro hgb
    cases hgb with
    | inl h1 => simp [tin_value, gb_ports, h1]
    | inr h2 => simp [tin_value, gb_ports, h2]
  · rintro ⟨h1, h2⟩
    simp [tin_value, gb_ports, h1, h2]
  · rw [update_xml_tree_mkDecl]; rfl
  · rw [update_xml_tree_mkDecl]; rfl

/-- Witness for C6 at the ports `gbliv` (case-insensitive member) and
`NLRTM` (non-member). -/
theorem c6_tin_rule_witness :
    tin_value "gbliv" = "GB243408284000" ∧ tin_value "NLRTM" = "XI243408284000" :=
  ⟨(c6_tin_rule "gbliv" "Root" none none none none none none none none none
      none none "V" "I" "" "F").1 (Or.inl rfl),
   (c6_tin_rule "NLRTM" "Root" none none none none none none none none none
      none none "V" "I" "" "F").2.1
     ⟨by decide, by decide⟩⟩

/-- Counterexample for C5: with an unparseable arrival date the batch
function returns normally with `(0, ["Invalid date format: ..."])` — the
condition is delivered as an entry of the returned error list of the
batch result, and no exception propagates to the caller. -/
theorem c5_counterexample :
    update_xml_directory (fun _ => WriteOutcome.ok)
      [("a.xml", FileContent.malformed)] "V265" "9123456" "GBLIV" "" "2025-13-45"
    = ((0, ["Invalid date format: 2025-13-45"]), [("a.xml", FileContent.malformed)]) := rfl

/-- C5 as amended: for every arrival date string that does not parse as a
`%Y-%m-%d` date the batch aborts before any file is opened — no file is
read or modified — and the failure is reported as the single entry
`Invalid date format: s` of the returned error list with updated count 0,
rather than being raised to the caller. -/
theorem c5_invalid_date (wo : String → WriteOutcome)
    (files : List (String × FileContent)) (v i p rn s : String)
    (h : parseArrivalDate s = none) :
    update_xml_directory wo files v i p rn s
    = ((0, ["Invalid date format: " ++ s]), files) := by
  simp [update_xml_directory, formattedDateOf, h]

/-- Witness for C5 at the date string `2025-02-30`. -/
theorem c5_invalid_date_witness :
    parseArrivalDate "2025-02-30" = none ∧
    update_xml_directory (fun _ => WriteOutcome.ok)
      [("b.xml", FileContent.malformed)] "V" "I" "P" "" "2025-02-30"
    = ((0, ["Invalid date format: 2025-02-30"]), [("b.xml", FileContent.malformed)]) :=
  ⟨rfl, c5_invalid_date (fun _ => WriteOutcome.ok)
    [("b.xml", FileContent.malformed)] "V" "I" "P" "" "2025-02-30" rfl⟩

/-!
Arithmetic facts about the date model, used to bound the shape of the
formatted arrival stamp.
-/

theorem isDigit_toNat (c : Char) (h : c.isDigit = true) :
    48 ≤ c.toNat ∧ c.toNat ≤ 57 := by
  simp only [Char.isDigit, Bool.and_eq_true, decide_eq_true_eq] at h
  obtain ⟨h1, h2⟩ := h
  exact ⟨UInt32.le_toNat_of_le (by decide) h1, UInt32.toNat_le_of_le (by decide) h2⟩

theorem digitsVal_aux (cs : List Char) (h : allDigits cs = true) :
    (a : Nat) → cs.foldl (fun x c => x * 10 + (c.toNat - 48)) a < (a + 1) * 10 ^ cs.length := by
  induction cs with
  | nil => intro a; simp
  | cons c rest ih =>
    intro a
    simp only [allDigits, List.all_cons, Bool.and_eq_true] at h
    obtain ⟨hc, hrest⟩ := h
    have hd : c.toNat - 48 ≤ 9 := by
      have := isDigit_toNat c hc; omega
    have step := ih hrest (a * 10 + (c.toNat - 48))
    simp only [List.foldl_cons, List.length_cons]
    calc rest.foldl (fun x c => x * 10 + (c.toNat - 48)) (a * 10 + (c.toNat - 48))
        < (a * 10 + (c.toNat - 48) + 1) * 10 ^ rest.length := step
      _ ≤ ((a + 1) * 10) * 10 ^ rest.length := by
          apply Nat.mul_le_mul_right
          omega
      _ = (a + 1) * 10 ^ (rest.length + 1) := by ring

theorem digitsVal_lt (cs : List Char) (h : allDigits cs = true) :
    digitsVal cs < 10 ^ cs.length := by
  have h0 := digitsVal_aux cs h 0
  simp only [Nat.zero_add, Nat.one_mul] at h0
  exact h0

/-- Bounds carried by every accepted date: the year has at most four
digits, months are 1..12, days 1..31 (the calendar check can only shrink
the day bound). -/
theorem parse_bounds (s : String) (y m d : Nat)
    (h : parseArrivalDate s = some (y, m, d)) :
    1 ≤ y ∧ y ≤ 9999 ∧ 1 ≤ m ∧ m ≤ 12 ∧ 1 ≤ d ∧ d ≤ 31 := by
  unfold parseArrivalDate at h
  rcases hsp : splitDash s.toList with _ | ⟨ys, _ | ⟨ms, _ | ⟨ds, _ | ⟨e, es⟩⟩⟩⟩ <;>
    rw [hsp] at h <;> try simp at h
  rcases hys : yearTok ys with _ | y2 <;> rw [hys] at h <;> try simp at h
  rcases hms : monthTok ms with _ | m2 <;> rw [hms] at h <;> try simp at h
  rcases hds : dayTok ds with _ | d2 <;> rw [hds] at h <;> try simp at h
  obtain ⟨⟨hy1, hdm⟩, hyy, hmm, hdd⟩ := h
  subst hyy; subst hmm; subst hdd
  refine ⟨hy1, ?_, ?_, ?_, ?_, ?_⟩
  · unfold yearTok at hys
    split at hys
    case isFalse => simp at hys
    case isTrue hyc =>
      simp only [Bool.and_eq_true, beq_iff_eq] at hyc
      obtain ⟨hlen, hdig⟩ := hyc
      have := digitsVal_lt ys hdig
      rw [hlen] at this
      simp only [Option.some_inj] at hys
      omega
  · unfold monthTok at hms
    split at hms
    case isFalse => simp at hms
    case isTrue hmc =>
      simp only [Bool.and_eq_true, decide_eq_true_eq] at hmc
      simp only [Option.some_inj] at hms
      omega
  · unfold monthTok at hms
    split at hms
    case isFalse => simp at hms
    case isTrue hmc =>
      simp only [Bool.and_eq_true, decide_eq_true_eq] at hmc
      simp only [Option.some_inj] at hms
      omega
  · unfold dayTok at hds
    split at hds
    · split at hds
      case isTrue hdc =>
        simp only [Bool.and_eq_true, bne_iff_ne, decide_eq_true_eq] at hdc
        obtain ⟨hdig, hne⟩ := hdc
        rename_i c0
        have hb := isDigit_toNat c0 hdig
        simp only [Option.some_inj] at hds
        have h48 : ¬ (c0.toNat = 48) := by
          intro heq
          apply hne
          apply Char.ext
          apply UInt32.toNat.inj
          simpa [Char.toNat] using heq
        omega
      case isFalse => simp at hds
    · split at hds
      case isTrue hdc =>
        simp only [Bool.and_eq_true, decide_eq_true_eq] at hdc
        simp only [Option.some_inj] at hds
        omega
      case isFalse => simp at hds
  · unfold dayTok at hds
    split at hds
    · split at hds
      case isTrue hdc =>
        simp only [Bool.and_eq_true, bne_iff_ne, decide_eq_true_eq] at hdc
        have hb := isDigit_toNat _ hdc.1
        simp only [Option.some_inj] at hds
        omega
      case isFalse => simp at hds
    · split at hds
      case isTrue hdc =>
        simp only [Bool.and_eq_true, decide_eq_true_eq] at hdc
        simp only [Option.some_inj] at hds
        omega
      case isFalse => simp at hds

theorem digitChar_isDigit (k : Nat) (h : k ≤ 9) : (digitChar k).isDigit = true := by
  interval_cases k <;> decide

theorem decStr_spec4 (n : Nat) (h1 : 1000 ≤ n) (h2 : n ≤ 9999) :
    (decStr n).length = 4 ∧ allDigits (decStr n).toList = true := by
  unfold decStr
  rw [if_neg (by omega), if_neg (by omega), if_neg (by omega)]
  have a1 : (digitChar (n / 1000)).isDigit = true := digitChar_isDigit _ (by omega)
  have a2 : (digitChar (n / 100 % 10)).isDigit = true := digitChar_isDigit _ (by omega)
  have a3 : (digitChar (n / 10 % 10)).isDigit = true := digitChar_isDigit _ (by omega)
  have a4 : (digitChar (n % 10)).isDigit = true := digitChar_isDigit _ (by omega)
  refine ⟨rfl, ?_⟩
  show allDigits [digitChar (n / 1000), digitChar (n / 100 % 10),
    digitChar (n / 10 % 10), digitChar (n % 10)] = true
  simp [allDigits, a1, a2, a3, a4]

theorem pad2_spec (n : Nat) (h : n ≤ 99) :
    (pad2 n).length = 2 ∧ allDigits (pad2 n).toList = true := by
  unfold pad2 decStr
  by_cases h10 : n < 10
  · rw [if_pos h10, if_pos h10]
    have a1 : (digitChar n).isDigit = true := digitChar_isDigit _ (by omega)
    refine ⟨rfl, ?_⟩
    show allDigits (String.mk ('0' :: [digitChar n])).toList = true
    simp [allDigits, a1]
  · rw [if_neg h10, if_neg h10, if_pos (by omega)]
    have a1 : (digitChar (n / 10)).isDigit = true := digitChar_isDigit _ (by omega)
    have a2 : (digitChar (n % 10)).isDigit = true := digitChar_isDigit _ (by omega)
    refine ⟨rfl, ?_⟩
    show allDigits [digitChar (n / 10), digitChar (n % 10)] = true
    simp [allDigits, a1, a2]

/-- Counterexample for C7: the arrival date string `0999-01-01` is
accepted at the `%Y-%m-%d` boundary (four year digits, valid calendar
day), yet the resolved value is `99901010000` — eleven characters, not
the claimed twelve — because the platform `%Y` does not zero-pad years
below 1000. -/
theorem c7_counterexample :
    parseArrivalDate "0999-01-01" = some (999, 1, 1)
    ∧ formattedDateOf "0999-01-01" = some "99901010000"
    ∧ "99901010000".length = 11 := ⟨rfl, rfl, rfl⟩

/-- C7 as amended: for every accepted date whose year is at least 1000
(every year the strict four-digit `YYYY` reading denotes), the resolved
arrival value is the unpadded year, two month digits, two day digits and
the literal suffix `0000` — exactly 12 ASCII digits.  Years 1..999,
which the boundary also accepts with a leading zero, format shorter. -/
theorem c7_arrival_format (s : String) (y m d : Nat)
    (h : parseArrivalDate s = some (y, m, d)) (hy : 1000 ≤ y) :
    formattedDateOf s = some (decStr y ++ pad2 m ++ pad2 d ++ "0000")
    ∧ (decStr y ++ pad2 m ++ pad2 d ++ "0000").length = 12
    ∧ allDigits (decStr y ++ pad2 m ++ pad2 d ++ "0000").toList = true := by
  obtain ⟨hy1, hy2, hm1, hm2, hd1, hd2⟩ := parse_bounds s y m d h
  obtain ⟨ly, dy⟩ := decStr_spec4 y hy hy2
  obtain ⟨lm, dm⟩ := pad2_spec m (by omega)
  obtain ⟨ld, dd⟩ := pad2_spec d (by omega)
  have d0 : allDigits "0000".toList = true := rfl
  refine ⟨?_, ?_, ?_⟩
  · simp [formattedDateOf, h, formatArrival]
  · simp [String.length_append, ly, lm, ld]
    rfl
  · have e : (decStr y ++ pad2 m ++ pad2 d ++ "0000").toList
        = (decStr y).toList ++ ((pad2 m).toList ++ ((pad2 d).toList ++ "0000".toList)) := by
      simp [String.toList, String.data_append]
    rw [e]
    simp only [allDigits, List.all_append, Bool.and_eq_true] at dy dm dd d0 ⊢
    exact ⟨dy, dm, dd, d0⟩

/-- Witness for C7 at the date `2025-12-11`. -/
theorem c7_arrival_format_witness :
    parseArrivalDate "2025-12-11" = some (2025, 12, 11) ∧ 1000 ≤ 2025 ∧
    (formattedDateOf "2025-12-11" = some (decStr 2025 ++ pad2 12 ++ pad2 11 ++ "0000")
    ∧ (decStr 2025 ++ pad2 12 ++ pad2 11 ++ "0000").length = 12
    ∧ allDigits (decStr 2025 ++ pad2 12 ++ pad2 11 ++ "0000").toList = true) :=
  ⟨rfl, by omega, c7_arrival_format "2025-12-11" 2025 12 11 rfl (by omega)⟩

/-- Concrete declaration document used by closed counterexamples. -/
def cdoc : XmlNode :=
  mkDecl "Root" (some "OLD") (some "1111111") (some "PPP") (some "OLDREF")
    (some "OLDTIME") (some "T1") (some "T2") (some "ACME") none
    (some "BETA") (some (some "77"))

/-- Counterexample for C2: a batch of five XML files in which exactly one
is malformed returns updated count 4 with an EMPTY error list — the
malformed file produces no error entry, because `update_xml_file` catches
`ParseError` itself and returns `False` instead of letting the directory
loop record anything. -/
theorem c2_counterexample :
    (update_xml_directory (fun _ => WriteOutcome.ok)
      [("a.xml", FileContent.wellFormed cdoc), ("b.xml", FileContent.wellFormed cdoc),
       ("c.xml", FileContent.malformed), ("d.xml", FileContent.wellFormed cdoc),
       ("e.xml", FileContent.wellFormed cdoc)]
      "V265" "9123456" "GBLIV" "" "2025-12-11").1
    = (4, []) := rfl

/-- C2 as amended: with a valid date and all writes succeeding, the walk
never stops early; the updated count is exactly the number of parse-ok
files with the XML extension, the error list is EMPTY (a malformed file
is skipped silently with only a console line), every parse-ok file holds
its transformed tree, and every malformed file is left untouched. -/
theorem c2_malformed_tolerance (v i p rn ds fd : String)
    (files : List (String × FileContent)) (hd : formattedDateOf ds = some fd) :
    update_xml_directory (fun _ => WriteOutcome.ok) files v i p rn ds
    = ((files.countP (fun f => isXmlName f.1 && isWellFormed f.2), []),
       files.map (fun f =>
         if isXmlName f.1 then (f.1, okContent v i p rn fd f.2) else f)) := by
  simp [update_xml_directory, hd, processFiles_all_ok]

/-- Witness for C2 at the five-file batch with one malformed member. -/
theorem c2_malformed_tolerance_witness :
    formattedDateOf "2025-12-11" = some "202512110000" ∧
    update_xml_directory (fun _ => WriteOutcome.ok)
      [("a.xml", FileContent.wellFormed cdoc), ("b.xml", FileContent.wellFormed cdoc),
       ("c.xml", FileContent.malformed), ("d.xml", FileContent.wellFormed cdoc),
       ("e.xml", FileContent.wellFormed cdoc)]
      "V265" "9123456" "GBLIV" "" "2025-12-11"
    = (([("a.xml", FileContent.wellFormed cdoc), ("b.xml", FileContent.wellFormed cdoc),
        ("c.xml", FileContent.malformed), ("d.xml", FileContent.wellFormed cdoc),
        ("e.xml", FileContent.wellFormed cdoc)].countP
          (fun f => isXmlName f.1 && isWellFormed f.2), []),
       [("a.xml", FileContent.wellFormed cdoc), ("b.xml", FileContent.wellFormed cdoc),
        ("c.xml", FileContent.malformed), ("d.xml", FileContent.wellFormed cdoc),
        ("e.xml", FileContent.wellFormed cdoc)].map (fun f =>
         if isXmlName f.1 then (f.1, okContent "V265" "9123456" "GBLIV" "" "202512110000" f.2)
         else f)) :=
  ⟨rfl, c2_malformed_tolerance "V265" "9123456" "GBLIV" "" "2025-12-11" "202512110000"
    [("a.xml", FileContent.wellFormed cdoc), ("b.xml", FileContent.wellFormed cdoc),
     ("c.xml", FileContent.malformed), ("d.xml", FileContent.wellFormed cdoc),
     ("e.xml", FileContent.wellFormed cdoc)] rfl⟩

/-- Presence of a descendant-or-self element with the given tag anywhere
in a forest. -/
def forestHasTag (t : String) : XmlForest → Bool
  | XmlForest.nil => false
  | XmlForest.cons (XmlNode.elem tg _ cs) rest =>
    tg == t || forestHasTag t cs || forestHasTag t rest

theorem forestModify_none (f : XmlNode → XmlNode) (t0 : String) (ts : List String) :
    (l : XmlForest) → forestHasTag t0 l = false → forestModify f t0 ts l = none
  | XmlForest.nil, _ => rfl
  | XmlForest.cons (XmlNode.elem tg x cs) rest, h => by
    simp only [forestHasTag, Bool.or_eq_false_iff] at h
    obtain ⟨⟨h1, h2⟩, h3⟩ := h
    simp only [forestModify, h1,
      forestModify_none f t0 ts cs h2, forestModify_none f t0 ts rest h3]
    rfl

theorem update_val_miss (d : XmlNode) (t0 : String) (ts : List String) (v : String)
    (h : forestHasTag t0 d.children = false) :
    update_val d (t0 :: ts) v = (d, false) := by
  simp [update_val, forestModify_none _ _ _ _ h]

theorem ensure_child_miss (d : XmlNode) (t0 : String) (ts : List String)
    (ct dv : String) (h : forestHasTag t0 d.children = false) :
    ensure_child_node d (t0 :: ts) ct dv = d := by
  simp [ensure_child_node, forestModify_none _ _ _ _ h]

/-- Documents without a namespace-qualified `EntrySummaryDeclaration`
descendant — in particular every parse-ok file whose elements are not in
the fixed namespace — pass through the whole transform unchanged. -/
theorem update_xml_tree_no_ns (d : XmlNode) (v i p rn fd : String)
    (h : forestHasTag (qn "EntrySummaryDeclaration") d.children = false) :
    update_xml_tree d v i p rn fd = d := by
  simp only [update_xml_tree, pConveyance, pIde, pDeclPlace, pRefNum, pArrival,
    pConsignor, pConsignee, pLodgingTin, pCarrierTin,
    update_val_miss _ _ _ _ h, ensure_child_miss _ _ _ _ _ h, Bool.cond_self]

/-- Parse-ok document with no namespace binding at all: ElementTree sees
plain unqualified tags. -/
def wrongNsDoc : XmlNode :=
  XmlNode.elem "EntrySummaryDeclaration" none (XmlForest.ofList [
    XmlNode.elem "ConveyanceRefNum" (some "OLD") XmlForest.nil,
    XmlNode.elem "LodgingPerson" none (XmlForest.ofList [
      XmlNode.elem "TIN" (some "T0") XmlForest.nil])])

/-- Counterexample for C3: a well-formed file whose root is NOT bound to
the expected namespace is not reported as an error — it is counted as
updated (count 1, empty error list) and rewritten in place with no field
changed. -/
theorem c3_counterexample :
    update_xml_directory (fun _ => WriteOutcome.ok)
      [("w.xml", FileContent.wellFormed wrongNsDoc)]
      "V265" "9123456" "GBLIV" "" "2025-12-11"
    = ((1, []), [("w.xml", FileContent.wellFormed wrongNsDoc)]) := rfl

/-- C3 as amended: a file that parses but carries no namespace-qualified
`EntrySummaryDeclaration` element is treated as a SUCCESS, not an error:
every path lookup misses, no field text changes, the document is
re-serialized to the same path unchanged and counted in the updated
count, and the error list stays empty. -/
theorem c3_wrong_namespace (d : XmlNode) (name v i p rn ds fd : String)
    (h : forestHasTag (qn "EntrySummaryDeclaration") d.children = false)
    (hd : formattedDateOf ds = some fd) (hn : isXmlName name = true) :
    update_xml_directory (fun _ => WriteOutcome.ok)
      [(name, FileContent.wellFormed d)] v i p rn ds
    = ((1, []), [(name, FileContent.wellFormed d)]) := by
  have e := processFiles_all_ok v i p rn fd [(name, FileContent.wellFormed d)]
  simp only [List.countP_cons, List.countP_nil, List.map_cons, List.map_nil,
    hn, isWellFormed, Bool.and_self, if_true, okContent] at e
  rw [update_xml_tree_no_ns d v i p rn fd h] at e
  simp [update_xml_directory, hd, e]

/-- Witness for C3 at the concrete namespace-free document. -/
theorem c3_wrong_namespace_witness :
    forestHasTag (qn "EntrySummaryDeclaration") wrongNsDoc.children = false ∧
    update_xml_directory (fun _ => WriteOutcome.ok)
      [("w2.xml", FileContent.wellFormed wrongNsDoc)] "V" "I" "NLRTM" "" "2025-12-11"
    = ((1, []), [("w2.xml", FileContent.wellFormed wrongNsDoc)]) :=
  ⟨rfl, c3_wrong_namespace wrongNsDoc "w2.xml" "V" "I" "NLRTM" "" "2025-12-11"
    "202512110000" rfl rfl rfl⟩

/-- Counterexample for C4: when the in-place write fails at the very
first byte, the path ends up holding an empty truncated file — the
original document is NOT intact (there is no temporary file and no atomic
replace: `tree.write` truncates the destination before writing). -/
theorem c4_counterexample :
    update_xml_directory (fun _ => WriteOutcome.fail 0 "disk full")
      [("a.xml", FileContent.wellFormed cdoc)]
      "V265" "9123456" "GBLIV" "" "2025-12-11"
    = ((0, ["a.xml: disk full"]), [("a.xml", FileContent.truncated "")])
    ∧ FileContent.truncated "" ≠ FileContent.wellFormed cdoc :=
  ⟨rfl, fun hcontr => FileContent.noConfusion hcontr⟩

/-- C4 as amended: a write failure after `k` bytes leaves the path
holding a truncated prefix of the FRESH serialization (not the original
bytes); the failure is recorded as the per-file entry `name: message` in
the error list, the file is not counted, and the batch continues with
the remaining files. -/
theorem c4_write_failure (k : Nat) (msg : String) (d1 d2 : XmlNode)
    (v i p rn : String) :
    update_xml_directory
      (fun n => cond (n == "a.xml") (WriteOutcome.fail k msg) WriteOutcome.ok)
      [("a.xml", FileContent.wellFormed d1), ("b.xml", FileContent.wellFormed d2)]
      v i p rn "2025-12-11"
    = ((1, ["a.xml: " ++ msg]),
       [("a.xml", FileContent.truncated
          ((serializeDoc (update_xml_tree d1 v i p rn "202512110000")).take k)),
        ("b.xml", FileContent.wellFormed
          (update_xml_tree d2 v i p rn "202512110000"))]) := rfl

/-- C8: `ensure_child_node` and the full transform are idempotent on
declaration documents.  When the `Consignor` parent exists with no
`Number` child in the document namespace, exactly one `Number` child with
text `N/A` is appended after the existing children (`consignKids` places
it last); when such a child already exists — whatever its text — the
operation is a no-op; and running the whole per-file transform twice with
identical inputs equals running it once, so repeated processing never
duplicates the optional elements. -/
theorem c8_ensure_child_idempotent (rootLocal : String)
    (crn ide dpl ref eta lpTin caTin conorName coneeName : Option String)
    (conorNum coneeNum : Option (Option String)) (v i p rn fd : String) :
    (ensure_child_node
        (mkDecl rootLocal crn ide dpl ref eta lpTin caTin
          conorName none coneeName coneeNum)
        pConsignor "Number" "N/A"
      = mkDecl rootLocal crn ide dpl ref eta lpTin caTin
          conorName (some (some "N/A")) coneeName coneeNum)
    ∧ (∀ t : Option String, ensure_child_node
        (mkDecl rootLocal crn ide dpl ref eta lpTin caTin
          conorName (some t) coneeName coneeNum)
        pConsignor "Number" "N/A"
      = mkDecl rootLocal crn ide dpl ref eta lpTin caTin
          conorName (some t) coneeName coneeNum)
    ∧ update_xml_tree
        (update_xml_tree
          (mkDecl rootLocal crn ide dpl ref eta lpTin caTin
            conorName conorNum coneeName coneeNum) v i p rn fd) v i p rn fd
      = update_xml_tree
          (mkDecl rootLocal crn ide dpl ref eta lpTin caTin
            conorName conorNum coneeName coneeNum) v i p rn fd := by
  refine ⟨?_, ?_, ?_⟩
  · exact upd_conor rootLocal crn ide dpl ref eta lpTin caTin conorName coneeName
      none coneeNum
  · intro t
    exact upd_conor rootLocal crn ide dpl ref eta lpTin caTin conorName coneeName
      (some t) coneeNum
  · rw [update_xml_tree_mkDecl, update_xml_tree_mkDecl]
    cases h : (rn == "") <;> simp [h]

/-- Counterexample for C9: a port-reference entry that IS present but
maps to the empty string is not written — `get_ref_num` returns the
stored `""`, the processor's truthiness test skips the update, and the
`RefNum` field keeps its old text, contradicting `when an entry is
present, its value is written`. -/
theorem c9_counterexample :
    get_ref_num (SettingsFile.valid (PyJson.obj
      [("port_mappings", PyJson.obj [("GBLIV", PyJson.str "")])])) "GBLIV"
      = Except.ok (PyJson.str "")
    ∧ textAt (update_xml_tree cdoc "V265" "9123456" "GBLIV" "" "202512110000") pRefNum
      = some (some "OLDREF")
    ∧ ("OLDREF" : String) ≠ "" := ⟨rfl, rfl, by decide⟩

/-- C9 as amended: the lookup queries the mapping with the exact port
code; when the port has NO entry the lookup yields the empty string, the
`RefNum` field is skipped (its text is unchanged) and the file still
processes successfully; when an entry with a NON-EMPTY string value is
present, that value is written to the `RefNum` field. -/
theorem c9_ref_lookup (kvs m : List (String × PyJson)) (port s : String)
    (rootLocal : String)
    (crn ide dpl ref eta lpTin caTin conorName coneeName : Option String)
    (conorNum coneeNum : Option (Option String)) (v i fd : String)
    (hm : dictLookup kvs "port_mappings" = some (PyJson.obj m))
    (hs : (s == "") = false) :
    (dictLookup m port = none →
      get_ref_num (SettingsFile.valid (PyJson.obj kvs)) port
        = Except.ok (PyJson.str ""))
    ∧ textAt (update_xml_tree (mkDecl rootLocal crn ide dpl ref eta lpTin caTin
        conorName conorNum coneeName coneeNum) v i port "" fd) pRefNum = some ref
    ∧ update_xml_file WriteOutcome.ok
        (FileContent.wellFormed (mkDecl rootLocal crn ide dpl ref eta lpTin caTin
          conorName conorNum coneeName coneeNum)) v i port "" fd
      = FileOutcome.updated (FileContent.wellFormed (update_xml_tree
          (mkDecl rootLocal crn ide dpl ref eta lpTin caTin
            conorName conorNum coneeName coneeNum) v i port "" fd))
    ∧ (dictLookup m port = some (PyJson.str s) →
      get_ref_num (SettingsFile.valid (PyJson.obj kvs)) port
        = Except.ok (PyJson.str s))
    ∧ textAt (update_xml_tree (mkDecl rootLocal crn ide dpl ref eta lpTin caTin
        conorName conorNum coneeName coneeNum) v i port s fd) pRefNum
      = some (some s) := by
  refine ⟨?_, ?_, rfl, ?_, ?_⟩
  · intro habs
    simp [get_ref_num, load_settings, hm, habs]
  · rw [update_xml_tree_mkDecl]; rfl
  · intro hpres
    simp [get_ref_num, load_settings, hm, hpres]
  · rw [update_xml_tree_mkDecl]
    simp only [hs, cond_false]
    rfl

/-- Witness for C9 at a mapping holding `GBFXT` with value `R77`. -/
theorem c9_ref_lookup_witness :
    textAt (update_xml_tree
      (mkDecl "Root" none none none (some "OLDREF") none none none none none none none)
      "V" "I" "GBFXT" "R77" "FD") pRefNum = some (some "R77") :=
  (c9_ref_lookup [("port_mappings", PyJson.obj [("GBFXT", PyJson.str "R77")])]
    [("GBFXT", PyJson.str "R77")] "GBFXT" "R77" "Root" none none none (some "OLDREF")
    none none none none none none none "V" "I" "FD" rfl rfl).2.2.2.2

/-- Counterexample for C10: a settings file that is valid JSON but not an
object makes `get_ref_num` raise `AttributeError` (a JSON array has no
`.get`), so the lookup is not total across all settings-file states. -/
theorem c10_counterexample :
    get_ref_num (SettingsFile.valid (PyJson.arr [])) "GBLIV"
      = Except.error "AttributeError" := rfl

/-- C10 as amended: whenever the settings file is missing, not valid
JSON, or a JSON object whose `port_mappings` entry is an object (the only
shapes `save_settings` produces), `get_ref_num` returns a string and
never raises: the empty string for a missing file, undecodable JSON or an
unmapped port; a present entry with value `""` is indistinguishable from
an absent one; and the processor given `""` skips the `RefNum` update
exactly as for an absent entry while every other field is still written.
A valid-JSON settings file that is not an object (or whose
`port_mappings` is not an object) instead raises `AttributeError`. -/
theorem c10_lookup_default (port : String) (kvs m : List (String × PyJson))
    (rootLocal : String)
    (crn ide dpl ref eta lpTin caTin conorName coneeName : Option String)
    (conorNum coneeNum : Option (Option String)) (v i fd : String)
    (hm : dictLookup kvs "port_mappings" = some (PyJson.obj m))
    (habs : dictLookup m port = none) :
    get_ref_num SettingsFile.missing port = Except.ok (PyJson.str "")
    ∧ get_ref_num SettingsFile.notJson port = Except.ok (PyJson.str "")
    ∧ get_ref_num (SettingsFile.valid (PyJson.obj kvs)) port = Except.ok (PyJson.str "")
    ∧ get_ref_num (SettingsFile.valid (PyJson.obj
        [("port_mappings", PyJson.obj [(port, PyJson.str "")])])) port
      = Except.ok (PyJson.str "")
    ∧ update_xml_tree (mkDecl rootLocal crn ide dpl ref eta lpTin caTin
        conorName conorNum coneeName coneeNum) v i port "" fd
      = mkDecl rootLocal (some v) (some i) (some port) ref (some fd)
          (some (tin_value port)) (some (tin_value port))
          conorName (some (conorNum.getD (some "N/A")))
          coneeName (some (coneeNum.getD (some "N/A"))) := by
  refine ⟨rfl, rfl, ?_, ?_, ?_⟩
  · simp [get_ref_num, load_settings, hm, habs]
  · simp [get_ref_num, load_settings, dictLookup, List.lookup]
  · rw [update_xml_tree_mkDecl]; rfl

/-- Witness for C10 at the port `XYZ` against a one-entry mapping. -/
theorem c10_lookup_default_witness :
    get_ref_num SettingsFile.missing "XYZ" = Except.ok (PyJson.str "") ∧
    get_ref_num (SettingsFile.valid (PyJson.obj
      [("port_mappings", PyJson.obj [("GBLIV", PyJson.str "R1")])])) "XYZ"
      = Except.ok (PyJson.str "") :=
  ⟨(c10_lookup_default "XYZ" [("port_mappings", PyJson.obj [("GBLIV", PyJson.str "R1")])]
      [("GBLIV", PyJson.str "R1")] "Root" none none none none none none none none
      none none none "V" "I" "FD" rfl rfl).1,
   (c10_lookup_default "XYZ" [("port_mappings", PyJson.obj [("GBLIV", PyJson.str "R1")])]
      [("GBLIV", PyJson.str "R1")] "Root" none none none none none none none none
      none none none "V" "I" "FD" rfl rfl).2.2.1⟩
